import Mathlib

/-!
Verification development for the DataVault Explorer frontend
(`datavault-frontend`): a shallow embedding of `dataset_handler.py`,
`app.py` and `pages/1_Dataset_Explorer.py`, with theorems about the
dataset loader's encoding fallback ladder, the acquisition flow, the
object-store overwrite policy, the backend API client and logout.

External collaborators (the Supabase storage service, the Kaggle client,
the `pandas` parsers, the HTTP layer) are modelled as oracles: functions
supplied as parameters whose results drive the embedded control flow,
which is translated statement by statement from the Python source.
-/

namespace DataVault

/-- Prefix test on character lists. -/
def listPrefixOf : List Char → List Char → Bool
  | [], _ => true
  | _ :: _, [] => false
  | a :: as, b :: bs => a == b && listPrefixOf as bs

/-- Test that `needle` occurs as a contiguous run inside `hay`. -/
def listContains (needle : List Char) : List Char → Bool
  | [] => needle.isEmpty
  | c :: rest => listPrefixOf needle (c :: rest) || listContains needle rest

/-- Python's `needle in hay` substring test on strings. -/
def strContains (hay needle : String) : Bool :=
  listContains needle.data hay.data

/-! ## Dataset Loader: `get_from_supabase` (dataset_handler.py lines 56-118) -/

/-- Exceptions raised by `pd.read_csv`: the source distinguishes
`UnicodeDecodeError` from any other exception when recording a failure. -/
inductive ParseErr where
  | unicodeDecodeError (msg : String)
  | otherError (msg : String)
  deriving DecidableEq, Repr

/-- The error-list entry recorded for a failed fallback attempt
(lines 95 and 98 of dataset_handler.py). -/
def parseErrEntry (enc : String) : ParseErr → String
  | .unicodeDecodeError m => enc ++ ": " ++ m
  | .otherError m => enc ++ ": Unexpected error: " ++ m

/-- Which strategy produced the returned table (reported via `st.success`). -/
inductive Strategy where
  | detected (enc : String)
  | fallback (enc : String)
  | excel
  deriving DecidableEq, Repr

/-- Result of `get_from_supabase`: a loaded table tagged with its strategy,
a decode failure carrying the aggregated `errors` list (line 83-112), or a
storage-download failure (outer `except`, line 116-118). -/
inductive GetResult (Table : Type) where
  | ok (strat : Strategy) (df : Table)
  | decodeFailed (errors : List String)
  | storageError (msg : String)
  deriving DecidableEq, Repr

/-- Oracle for the external effects of `get_from_supabase`:
the storage download, `chardet.detect` (`none` models `ImportError`,
`some none` a detection without an encoding), `pd.read_csv` at a given
encoding over the downloaded buffer, and `pd.read_excel`. -/
structure DecodeOracle (Table : Type) where
  download : Except String Unit
  chardet : Option (Option String)
  readCsv : String → Except ParseErr Table
  readExcel : Except String Table

/-- The fixed fallback encoding list (line 82 of dataset_handler.py). -/
def fallbackEncodings : List String :=
  ["utf-8", "latin1", "iso-8859-1", "cp1252", "utf-16", "ascii"]

/-- The `for encoding in encodings` loop (lines 85-99): try each encoding in
order, returning the first success, otherwise the accumulated error entries. -/
def tryFallbacks {Table : Type} (readCsv : String → Except ParseErr Table) :
    List String → List String → Except (List String) (String × Table)
  | [], errors => .error errors
  | enc :: rest, errors =>
    match readCsv enc with
    | .ok df => .ok (enc, df)
    | .error e => tryFallbacks readCsv rest (errors ++ [parseErrEntry enc e])

/-- The first encoding in a list that parses successfully, with its table. -/
def firstOk {Table : Type} (readCsv : String → Except ParseErr Table) :
    List String → Option (String × Table)
  | [] => none
  | enc :: rest =>
    match readCsv enc with
    | .ok df => some (enc, df)
    | .error _ => firstOk readCsv rest

/-- The final aggregated error message (lines 110-112). -/
def aggregateMessage (errors : List String) : String :=
  errors.foldl (fun acc e => acc ++ "- " ++ e ++ "\n")
    "Failed to load dataset. Attempted the following:\n\n"

/-- The chardet-guided attempt (dataset_handler.py lines 62-79): `none` when
detection is unavailable, yields no encoding, or the detected encoding fails
to parse — in the last case only a warning is shown and no error is recorded. -/
def detectedAttempt {Table : Type} (o : DecodeOracle Table) : Option (GetResult Table) :=
  match o.chardet with
  | none => none
  | some none => none
  | some (some enc) =>
    match o.readCsv enc with
    | .ok df => some (.ok (.detected enc) df)
    | .error _ => none

/-- Shallow embedding of `get_from_supabase` (dataset_handler.py lines
56-118): download, optional chardet-guided attempt (whose failure is only
warned about, not recorded), the fixed fallback ladder accumulating into
`errors`, the Excel fallback, and the aggregated failure. -/
def get_from_supabase {Table : Type} (o : DecodeOracle Table) : GetResult Table :=
  match o.download with
  | .error e => .storageError ("Error accessing dataset from storage: " ++ e)
  | .ok _ =>
    match detectedAttempt o with
    | some r => r
    | none =>
      match tryFallbacks o.readCsv fallbackEncodings [] with
      | .ok (enc, df) => .ok (.fallback enc) df
      | .error errors =>
        match o.readExcel with
        | .ok df => .ok .excel df
        | .error em => .decodeFailed (errors ++ ["Excel: " ++ em])

/-- The statistical-detection attempt is unavailable (`ImportError`, or no
encoding detected) or fails to parse. -/
def detectionFails {Table : Type} (o : DecodeOracle Table) : Prop :=
  o.chardet = none ∨ o.chardet = some none ∨
    ∃ d e, o.chardet = some (some d) ∧ o.readCsv d = .error e

/-- The error recorded for an encoding by the fallback ladder (junk value
when the encoding in fact parses). -/
def errOf {Table : Type} (readCsv : String → Except ParseErr Table)
    (enc : String) : ParseErr :=
  match readCsv enc with
  | .error e => e
  | .ok _ => .otherError ""

theorem tryFallbacks_of_firstOk {Table : Type}
    (readCsv : String → Except ParseErr Table) :
    ∀ (encs acc : List String) (enc : String) (df : Table),
      firstOk readCsv encs = some (enc, df) →
      tryFallbacks readCsv encs acc = .ok (enc, df) := by
  intro encs
  induction encs with
  | nil => intro acc enc df h; simp [firstOk] at h
  | cons e rest ih =>
    intro acc enc df h
    unfold firstOk at h
    unfold tryFallbacks
    cases hrc : readCsv e with
    | ok t =>
      rw [hrc] at h
      simp only [Option.some.injEq, Prod.mk.injEq] at h
      simp [hrc, h.1, h.2]
    | error err =>
      rw [hrc] at h
      simp only [hrc]
      exact ih _ enc df h

theorem tryFallbacks_error_spec {Table : Type}
    (readCsv : String → Except ParseErr Table) :
    ∀ (encs acc l : List String),
      tryFallbacks readCsv encs acc = .error l →
      (∀ enc ∈ encs, ∃ err, readCsv enc = .error err) ∧
      l = acc ++ encs.map (fun enc => parseErrEntry enc (errOf readCsv enc)) := by
  intro encs
  induction encs with
  | nil =>
    intro acc l h
    unfold tryFallbacks at h
    simp only [Except.error.injEq] at h
    exact ⟨by intro enc hm; simp at hm, by simp [h]⟩
  | cons e rest ih =>
    intro acc l h
    unfold tryFallbacks at h
    cases hrc : readCsv e with
    | ok t => rw [hrc] at h; exact absurd h (by simp)
    | error err =>
      rw [hrc] at h
      obtain ⟨h1, h2⟩ := ih _ l h
      refine ⟨?_, ?_⟩
      · intro enc hm
        rcases List.mem_cons.mp hm with rfl | hm2
        · exact ⟨err, hrc⟩
        · exact h1 enc hm2
      · rw [h2]
        simp [errOf, hrc, List.append_assoc]

theorem detectedAttempt_some_shape {Table : Type} (o : DecodeOracle Table)
    (r : GetResult Table) (h : detectedAttempt o = some r) :
    ∃ enc df, r = GetResult.ok (.detected enc) df := by
  unfold detectedAttempt at h
  split at h
  · simp at h
  · simp at h
  · rename_i enc hcd
    split at h
    · rename_i df hrc
      simp only [Option.some.injEq] at h
      exact ⟨enc, df, h.symm⟩
    · simp at h

theorem detectionFails_of_detectedAttempt_none {Table : Type}
    (o : DecodeOracle Table) (h : detectedAttempt o = none) :
    detectionFails o := by
  unfold detectedAttempt at h
  split at h
  · rename_i hcd; exact Or.inl hcd
  · rename_i hcd; exact Or.inr (Or.inl hcd)
  · rename_i enc hcd
    split at h
    · simp at h
    · rename_i err hrc; exact Or.inr (Or.inr ⟨enc, err, hcd, hrc⟩)

/-- C1: when statistical detection is unavailable or fails, the loader tries
exactly the fixed ordered list utf-8, latin1, iso-8859-1, cp1252, utf-16,
ascii and returns the table of the first encoding that parses successfully:
the earliest successful encoding in the list wins. -/
theorem c1_fallback_ladder_first_success {Table : Type} (o : DecodeOracle Table)
    (hdl : o.download = .ok ()) (hdet : detectionFails o)
    (enc : String) (df : Table)
    (hfirst : firstOk o.readCsv fallbackEncodings = some (enc, df)) :
    get_from_supabase o = .ok (.fallback enc) df ∧
    fallbackEncodings = ["utf-8", "latin1", "iso-8859-1", "cp1252", "utf-16", "ascii"] := by
  have hda : detectedAttempt o = none := by
    rcases hdet with h1 | h1 | ⟨d, e, hcd, hrc⟩
    · simp [detectedAttempt, h1]
    · simp [detectedAttempt, h1]
    · simp [detectedAttempt, hcd, hrc]
  have htf := tryFallbacks_of_firstOk o.readCsv fallbackEncodings [] enc df hfirst
  refine ⟨?_, rfl⟩
  simp [get_from_supabase, hdl, hda, htf]

/-- Concrete oracle for C1's witness: detection reports an encoding that
fails to parse; both latin1 and iso-8859-1 would parse, utf-8 fails. -/
def c1Oracle : DecodeOracle Nat where
  download := .ok ()
  chardet := some (some "utf-16le")
  readCsv := fun enc =>
    if enc == "latin1" || enc == "iso-8859-1" then .ok 7
    else .error (.unicodeDecodeError "invalid start byte")
  readExcel := .error "not a spreadsheet"

theorem c1_witness :
    c1Oracle.download = .ok () ∧ detectionFails c1Oracle ∧
    firstOk c1Oracle.readCsv fallbackEncodings = some ("latin1", 7) ∧
    get_from_supabase c1Oracle = .ok (.fallback "latin1") 7 := by
  have hdet : detectionFails c1Oracle :=
    Or.inr (Or.inr ⟨"utf-16le", .unicodeDecodeError "invalid start byte", rfl, rfl⟩)
  exact ⟨rfl, hdet, rfl,
    (c1_fallback_ladder_first_success c1Oracle rfl hdet "latin1" 7 rfl).1⟩

/-- C2 (amended): a decode failure is reported only after every fallback
encoding, the Excel attempt and the detected-encoding attempt (when one was
made) have failed, and the aggregated error list holds one entry per fallback
encoding plus the Excel attempt — the detected-encoding attempt contributes
no entry, its failure being reported only as a transient warning. -/
theorem c2_decode_error_aggregation {Table : Type} (o : DecodeOracle Table)
    (l : List String) (h : get_from_supabase o = .decodeFailed l) :
    detectionFails o ∧
    (∀ enc ∈ fallbackEncodings, ∃ err, o.readCsv enc = .error err) ∧
    ∃ em, o.readExcel = .error em ∧
      l = fallbackEncodings.map (fun enc => parseErrEntry enc (errOf o.readCsv enc))
        ++ ["Excel: " ++ em] := by
  unfold get_from_supabase at h
  split at h
  · simp at h
  · cases hda : detectedAttempt o with
    | some r =>
      rw [hda] at h
      obtain ⟨enc, df, rfl⟩ := detectedAttempt_some_shape o r hda
      simp at h
    | none =>
      rw [hda] at h
      refine ⟨detectionFails_of_detectedAttempt_none o hda, ?_⟩
      cases htf : tryFallbacks o.readCsv fallbackEncodings [] with
      | ok p => rw [htf] at h; simp at h
      | error errors =>
        rw [htf] at h
        obtain ⟨hfail, hform⟩ := tryFallbacks_error_spec o.readCsv fallbackEncodings [] errors htf
        cases hxl : o.readExcel with
        | ok df => rw [hxl] at h; simp at h
        | error em =>
          rw [hxl] at h
          simp only [GetResult.decodeFailed.injEq] at h
          exact ⟨hfail, em, rfl, by rw [← h, hform]; simp⟩

/-- Concrete oracle refuting C2 as stated: detection reports `koi8-r`, every
parse attempt fails, so every strategy is exhausted. -/
def c2Oracle : DecodeOracle Nat where
  download := .ok ()
  chardet := some (some "koi8-r")
  readCsv := fun _ => .error (.unicodeDecodeError "boom")
  readExcel := .error "not excel"

/-- The errors the loader aggregates for `c2Oracle`. -/
def c2Errors : List String :=
  ["utf-8: boom", "latin1: boom", "iso-8859-1: boom", "cp1252: boom",
   "utf-16: boom", "ascii: boom", "Excel: not excel"]

theorem c2_counterexample :
    c2Oracle.chardet = some (some "koi8-r") ∧
    get_from_supabase c2Oracle = .decodeFailed c2Errors ∧
    c2Errors.all (fun e => !(strContains e "koi8-r")) = true :=
  ⟨rfl, rfl, by decide⟩

theorem c2_witness :
    detectionFails c2Oracle ∧
    (∀ enc ∈ fallbackEncodings, ∃ err, c2Oracle.readCsv enc = .error err) ∧
    ∃ em, c2Oracle.readExcel = .error em ∧
      c2Errors = fallbackEncodings.map
          (fun enc => parseErrEntry enc (errOf c2Oracle.readCsv enc))
        ++ ["Excel: " ++ em] :=
  c2_decode_error_aggregation c2Oracle c2Errors rfl

/-! ## Remote object store: `upload_to_supabase` (dataset_handler.py lines 21-54) -/

/-- Embedding of `dataset_name.replace('/', '_')`: single-character replacement. -/
def datasetSlug (name : String) : String :=
  ⟨name.data.map (fun c => if c == '/' then '_' else c)⟩

/-- The storage path built on line 25 (and line 10) of dataset_handler.py:
`user_<id>/<dataset_name>/<file_name>`. -/
def mkBucketPath (userId datasetName fileName : String) : String :=
  "user_" ++ userId ++ "/" ++ datasetName ++ "/" ++ fileName

/-- Shallow embedding of `upload_to_supabase`: the bucket is a list of
(path, content) entries; the existing object at the target path is removed
(lines 35-39, ignoring a failing remove), then the new content is uploaded
(lines 46-50). Returns the new bucket contents and the bucket path. -/
def upload_to_supabase {C : Type} (store : List (String × C))
    (userId datasetName fileName : String) (content : C) :
    List (String × C) × String :=
  let bucketPath := mkBucketPath userId datasetName fileName
  ((store.filter fun e => !(e.1 == bucketPath)) ++ [(bucketPath, content)],
   bucketPath)

theorem filter_ne_then_eq_nil {C : Type} (l : List (String × C)) (p : String) :
    ((l.filter fun e => !(e.1 == p)).filter fun e => e.1 == p) = [] := by
  induction l with
  | nil => rfl
  | cons e rest ih =>
    by_cases h : e.1 = p <;> simp [List.filter_cons, h, ih]

/-- C4: uploading twice to the same path first removes the existing object,
then uploads: afterwards exactly one blob exists at that path and it holds
the second upload's content. -/
theorem c4_store_remote_overwrite {C : Type} (store : List (String × C))
    (userId datasetName fileName : String) (c1 c2 : C) :
    (((upload_to_supabase
        (upload_to_supabase store userId datasetName fileName c1).1
        userId datasetName fileName c2).1).filter
      fun e => e.1 == mkBucketPath userId datasetName fileName)
    = [(mkBucketPath userId datasetName fileName, c2)] := by
  simp [upload_to_supabase, List.filter_append, filter_ne_then_eq_nil]

/-! ## Dataset acquisition flow: the "Download new Dataset" handler in
`show_main_app` (app.py lines 567-610).

External effects are oracles: `checkCache` is the result of
`check_supabase_storage` (line 570), `loadFromStorage` of `get_from_supabase`
at a given path, `kaggle` of `download_kaggle_dataset` (the list of unpacked
CSV files now on local disk, `none` on failure), `uploadOk` whether
`upload_to_supabase` succeeds. `st.rerun()` raises an exception, so code
after it in the `try` block — in particular the clean-up loop on lines
602-604 — does not run. -/

/-- Observable outcome of one run of the download handler:
whether the Kaggle provider client was invoked, which locally unpacked
files remain on disk afterwards, the storage path given to the upload (if
reached), whether a table was loaded, and whether `st.rerun()` fired. -/
structure FlowResult where
  kaggleCalled : Bool
  filesLeft : List String
  storedPath : Option String
  loadedOk : Bool
  rerunRaised : Bool
  deriving DecidableEq, Repr

/-- The Kaggle branch (app.py lines 581-606): download, select
`scrubbed.csv` if present else the first file, upload under
`user_<id>/<slug>/<file>`, load, rerun on success; the clean-up loop runs
only when no rerun was raised before it. -/
def kaggleBranch {Table : Type} (userId datasetName : String)
    (loadFromStorage : String → Option Table)
    (kaggle : Option (List String)) (uploadOk : Bool) : FlowResult :=
  match kaggle with
  | none => ⟨true, [], none, false, false⟩
  | some [] => ⟨true, [], none, false, false⟩
  | some (f :: rest) =>
    let csvFiles := f :: rest
    let csvFile := if csvFiles.contains "scrubbed.csv" then "scrubbed.csv" else f
    if uploadOk then
      let bucketPath := mkBucketPath userId (datasetSlug datasetName) csvFile
      match loadFromStorage bucketPath with
      | some _ => ⟨true, csvFiles, some bucketPath, true, true⟩
      | none => ⟨true, [], some bucketPath, false, false⟩
    else ⟨true, [], none, false, false⟩

/-- The full handler (app.py lines 567-610): check the cache; on a hit try
to load it, rerunning on success; otherwise — including a cache hit whose
load returned `None` — fall through to the Kaggle branch. -/
def appDownloadHandler {Table : Type} (userId datasetName : String)
    (checkCache : Option String)
    (loadFromStorage : String → Option Table)
    (kaggle : Option (List String)) (uploadOk : Bool) : FlowResult :=
  match checkCache with
  | some path =>
    match loadFromStorage path with
    | some _ => ⟨false, [], none, true, true⟩
    | none => kaggleBranch userId datasetName loadFromStorage kaggle uploadOk
  | none => kaggleBranch userId datasetName loadFromStorage kaggle uploadOk

/-- C3: with the expected blob present in storage (`checkCache` hits) but
the cached blob failing to load, app.py's handler falls through to the
Kaggle download — the provider is called, contrary to the claim; when the
load succeeds the provider is indeed not called. -/
theorem c3_cache_hit_load_failure_calls_provider :
    (appDownloadHandler "1" "org/demo" (some "user_1/org_demo/scrubbed.csv")
      (fun _ => (none : Option Nat)) (some ["data.csv"]) true).kaggleCalled
      = true ∧
    (appDownloadHandler "1" "org/demo" (some "user_1/org_demo/scrubbed.csv")
      (fun _ => (some 0 : Option Nat)) (some ["data.csv"]) true).kaggleCalled
      = false :=
  ⟨rfl, rfl⟩

/-- C6: on the fully successful path `st.rerun()` fires before the clean-up
loop, so the locally unpacked file remains on disk; on the load-failure
path the clean-up loop does run. -/
theorem c6_success_rerun_leaves_temp_files :
    (appDownloadHandler "1" "org/demo" none (fun _ => (some 0 : Option Nat))
      (some ["data.csv"]) true).filesLeft = ["data.csv"] ∧
    (appDownloadHandler "1" "org/demo" none (fun _ => (some 0 : Option Nat))
      (some ["data.csv"]) true).rerunRaised = true ∧
    (appDownloadHandler "1" "org/demo" none (fun _ => (none : Option Nat))
      (some ["data.csv"]) true).filesLeft = [] :=
  ⟨rfl, rfl, rfl⟩

/-- C5: on a cache miss with a non-empty candidate list the flow selects
`scrubbed.csv` when present, otherwise the first file, and stores it at
`user_<id>/<slug>/<filename>` with slashes of the dataset name replaced. -/
theorem c5_file_selection_and_path {Table : Type} (userId datasetName : String)
    (loadFromStorage : String → Option Table) (f : String) (rest : List String) :
    ∃ sel,
      (appDownloadHandler userId datasetName none loadFromStorage
          (some (f :: rest)) true).storedPath
        = some (mkBucketPath userId (datasetSlug datasetName) sel) ∧
      ("scrubbed.csv" ∈ f :: rest → sel = "scrubbed.csv") ∧
      ("scrubbed.csv" ∉ f :: rest → sel = f) := by
  refine ⟨if (f :: rest).contains "scrubbed.csv" then "scrubbed.csv" else f,
    ?_, ?_, ?_⟩
  · simp only [appDownloadHandler, kaggleBranch, if_true]
    split <;> rfl
  · intro hm
    have hc : (f :: rest).contains "scrubbed.csv" = true :=
      List.elem_eq_true_of_mem hm
    rw [hc]
    simp
  · intro hm
    have hc : (f :: rest).contains "scrubbed.csv" = false := by
      cases hcc : (f :: rest).contains "scrubbed.csv" with
      | false => rfl
      | true => exact absurd (List.mem_of_elem_eq_true hcc) hm
    rw [hc]
    simp

theorem c5_witness :
    (appDownloadHandler "42" "org/demo" none (fun _ => (some 0 : Option Nat))
      (some ["other.csv", "scrubbed.csv"]) true).storedPath
      = some "user_42/org_demo/scrubbed.csv" := by
  obtain ⟨sel, h1, h2, _⟩ := c5_file_selection_and_path "42" "org/demo"
    (fun _ => (some 0 : Option Nat)) "other.csv" ["scrubbed.csv"]
  rw [h1, h2 (by simp)]
  rfl

/-! ## Backend API client: `make_api_call` (dataset_handler.py lines 153-174) -/

/-- A JSON response body, abstracted to the one field the client inspects:
`response.json().get('error', ...)`. -/
structure ApiJson where
  errorField : Option String
  deriving DecidableEq, Repr

/-- The HTTP GET request issued on line 167. -/
structure ApiRequest where
  url : String
  params : List (String × String)
  headers : List (String × String)
  deriving DecidableEq, Repr

/-- What `requests.get` produces: a response with a status code and a body
that may or may not parse as JSON, or a `ConnectionError`. -/
inductive HttpResult where
  | response (status : Nat) (jsonBody : Option ApiJson)
  | connectionFailure
  deriving DecidableEq, Repr

/-- How `make_api_call` terminates: a returned JSON value, a returned
`{"error": message}` dict, or an uncaught exception propagating to the
caller. -/
inductive ApiOutcome where
  | success (body : ApiJson)
  | errorDict (msg : String)
  | raised (exn : String)
  deriving DecidableEq, Repr

/-- The connection-failure message (line 174). -/
def connectionErrorMsg : String :=
  "Could not connect to API. Make sure the API server is running and accessible."

/-- The default rejected-response message (line 171). -/
def statusFailMsg (s : Nat) : String :=
  "API call failed with status code " ++ toString s

/-- Python dict assignment `params['bucket_path'] = v`. -/
def setParam (ps : List (String × String)) (k v : String) :
    List (String × String) :=
  (ps.filter fun e => !(e.1 == k)) ++ [(k, v)]

/-- The request built on lines 155-167: `bucket_path` is added to the params
only when `st.session_state.current_dataset` is set; headers default to
empty and are otherwise passed through unchanged. -/
def buildApiRequest (baseUrl : String) (currentDataset : Option String)
    (endpoint : String) (params0 headers0 : Option (List (String × String))) :
    ApiRequest where
  url := baseUrl ++ endpoint
  params :=
    match currentDataset with
    | some p => setParam (params0.getD []) "bucket_path" p
    | none => params0.getD []
  headers := headers0.getD []

/-- Shallow embedding of `make_api_call` (lines 153-174). Only
`ConnectionError` is caught; `response.json()` on a body that is not valid
JSON raises, and that exception propagates. -/
def make_api_call (baseUrl : String) (currentDataset : Option String)
    (endpoint : String) (params0 headers0 : Option (List (String × String)))
    (http : ApiRequest → HttpResult) : ApiOutcome :=
  match http (buildApiRequest baseUrl currentDataset endpoint params0 headers0) with
  | .connectionFailure => .errorDict connectionErrorMsg
  | .response s body =>
    if s == 200 then
      match body with
      | some j => .success j
      | none => .raised "response body is not valid JSON"
    else
      match body with
      | some j => .errorDict (j.errorField.getD (statusFailMsg s))
      | none => .raised "response body is not valid JSON"

theorem string_data_append (a b : String) : (a ++ b).data = a.data ++ b.data := by
  cases a
  cases b
  rfl

theorem connectionErrorMsg_ne_statusFailMsg (s : Nat) :
    connectionErrorMsg ≠ statusFailMsg s := by
  intro h
  have h2 : connectionErrorMsg.data = (statusFailMsg s).data :=
    congrArg String.data h
  have h3 : (statusFailMsg s).data
      = 'A' :: ("PI call failed with status code ".data ++ (toString s).data) := by
    show ("API call failed with status code " ++ toString s).data = _
    rw [string_data_append]
    rfl
  have h4 : connectionErrorMsg.data
      = 'C' :: "ould not connect to API. Make sure the API server is running and accessible.".data :=
    rfl
  rw [h3, h4] at h2
  injection h2 with h5 h6
  exact absurd h5 (by decide)

/-- Concrete input refuting C7 as stated: a 500 response whose body is not
valid JSON makes `make_api_call` raise (uncaught `JSONDecodeError` from
`response.json()` on line 171) instead of returning an error dict. -/
def c7Http : ApiRequest → HttpResult := fun _ => .response 500 none

theorem c7_counterexample :
    make_api_call "http://localhost:5000/api" (some "user_1/org_demo/scrubbed.csv")
      "/data/summary" none (some [("X-API-Key", "k")]) c7Http
      = .raised "response body is not valid JSON" ∧
    ¬(200 ≤ 500 ∧ 500 < 300) :=
  ⟨rfl, by decide⟩

/-- C7 (amended): a non-2xx response whose body parses as JSON yields a
structured error dict rather than an exception; a connection failure yields
the fixed "service unreachable" message, which differs from the default
rejected-response message at every status code. A non-2xx response whose
body is not valid JSON instead raises. -/
theorem c7_non2xx_error_dict (baseUrl : String) (currentDataset : Option String)
    (endpoint : String) (params0 headers0 : Option (List (String × String)))
    (s : Nat) (j : ApiJson) (hs : ¬(200 ≤ s ∧ s < 300)) :
    (∀ http : ApiRequest → HttpResult,
        http (buildApiRequest baseUrl currentDataset endpoint params0 headers0)
          = .response s (some j) →
        make_api_call baseUrl currentDataset endpoint params0 headers0 http
          = .errorDict (j.errorField.getD (statusFailMsg s))) ∧
    (∀ http : ApiRequest → HttpResult,
        http (buildApiRequest baseUrl currentDataset endpoint params0 headers0)
          = .connectionFailure →
        make_api_call baseUrl currentDataset endpoint params0 headers0 http
          = .errorDict connectionErrorMsg) ∧
    connectionErrorMsg ≠ statusFailMsg s := by
  have hs200 : s ≠ 200 := by
    intro heq
    exact hs (by omega)
  refine ⟨?_, ?_, connectionErrorMsg_ne_statusFailMsg s⟩
  · intro http hh
    unfold make_api_call
    rw [hh]
    simp [hs200]
  · intro http hh
    unfold make_api_call
    rw [hh]

/-- Concrete oracle for C7's witness: a 404 with a JSON body. -/
def c7WitnessHttp : ApiRequest → HttpResult := fun _ => .response 404 (some ⟨none⟩)

theorem c7_witness :
    make_api_call "http://localhost:5000/api" none "/data/summary" none none
      c7WitnessHttp = .errorDict (statusFailMsg 404) ∧
    connectionErrorMsg ≠ statusFailMsg 404 := by
  have h := c7_non2xx_error_dict "http://localhost:5000/api" none "/data/summary"
    none none 404 ⟨none⟩ (by decide)
  exact ⟨h.1 c7WitnessHttp rfl, h.2.2⟩

/-! ## Call sites of `make_api_call` (app.py lines 612-659) -/

/-- The slice of `st.session_state` that gates the API Examples section. -/
structure AppSession (Table : Type) where
  df : Option Table
  currentDataset : Option String
  apiKey : Option String

/-- app.py lines 612-659: a backend call is issued only when a dataset is
loaded (guard `st.session_state.df is not None and
st.session_state.current_dataset is not None`, line 613) and an API key was
fetched (guard on lines 622-626); each of the three call sites passes
`headers={"X-API-Key": api_key}`. Returns the request issued, or `none`
when no call is made in this session state. -/
def apiExamplesCall {Table : Type} (s : AppSession Table)
    (baseUrl endpoint : String) (params0 : Option (List (String × String))) :
    Option ApiRequest :=
  match s.df with
  | none => none
  | some _ =>
    match s.currentDataset with
    | none => none
    | some _ =>
      match s.apiKey with
      | none => none
      | some key =>
        some (buildApiRequest baseUrl s.currentDataset endpoint params0
          (some [("X-API-Key", key)]))

/-- C8: every request the API Examples section actually issues carries the
currently-loaded dataset's storage path as the `bucket_path` query parameter
and an API key in the `X-API-Key` header. -/
theorem c8_request_attaches_path_and_key {Table : Type} (s : AppSession Table)
    (baseUrl endpoint : String) (params0 : Option (List (String × String)))
    (req : ApiRequest)
    (h : apiExamplesCall s baseUrl endpoint params0 = some req) :
    (∃ p, s.currentDataset = some p ∧ ("bucket_path", p) ∈ req.params) ∧
    ∃ k, ("X-API-Key", k) ∈ req.headers := by
  obtain ⟨df, cd, key⟩ := s
  cases df with
  | none => simp [apiExamplesCall] at h
  | some t =>
    cases cd with
    | none => simp [apiExamplesCall] at h
    | some p =>
      cases key with
      | none => simp [apiExamplesCall] at h
      | some k =>
        simp only [apiExamplesCall, Option.some.injEq] at h
        subst h
        refine ⟨⟨p, rfl, ?_⟩, ⟨k, ?_⟩⟩
        · simp [buildApiRequest, setParam]
        · simp [buildApiRequest]

/-- Concrete session for C8's witness. -/
def c8Session : AppSession Nat :=
  ⟨some 0, some "user_1/org_demo/scrubbed.csv", some "key123"⟩

theorem c8_witness :
    (∃ p, c8Session.currentDataset = some p ∧
      ("bucket_path", p) ∈ (buildApiRequest "http://localhost:5000/api"
        c8Session.currentDataset "/data/summary" none
        (some [("X-API-Key", "key123")])).params) ∧
    ∃ k, ("X-API-Key", k) ∈ (buildApiRequest "http://localhost:5000/api"
        c8Session.currentDataset "/data/summary" none
        (some [("X-API-Key", "key123")])).headers :=
  c8_request_attaches_path_and_key c8Session "http://localhost:5000/api"
    "/data/summary" none _ rfl

/-! ## "Dataset already exists" detection: `check_supabase_storage`
(dataset_handler.py lines 7-19) versus the Dataset Explorer page's
slug-substring search (pages/1_Dataset_Explorer.py lines 132-139). -/

/-- Python's `s.endswith(suffix)`. -/
def strEndsWith (s suffix : String) : Bool :=
  listPrefixOf suffix.data.reverse s.data.reverse

/-- A `{'name': ..., 'path': ...}` entry built by `get_user_datasets`. -/
structure DatasetEntry where
  name : String
  path : String
  deriving DecidableEq, Repr

/-- Shallow embedding of `get_user_datasets` (dataset_handler.py lines
176-208): `rootEntries` is the listing of `user_<id>`, `folderFiles` the
listing of each sub-folder; files ending `.csv` at the root and inside
folders become entries, with folder entries named `<folder>/<file>`. -/
def get_user_datasets (userId : String) (rootEntries : List String)
    (folderFiles : String → List String) : List DatasetEntry :=
  (rootEntries.map (fun entry =>
    if strEndsWith entry ".csv" then
      [⟨entry, "user_" ++ userId ++ "/" ++ entry⟩]
    else
      (folderFiles entry).filterMap (fun f =>
        if strEndsWith f ".csv" then
          some ⟨entry ++ "/" ++ f,
                "user_" ++ userId ++ "/" ++ entry ++ "/" ++ f⟩
        else none))).flatten

/-- Shallow embedding of `check_supabase_storage` (dataset_handler.py lines
7-19): list the folder `user_<id>/<slug>` and report a hit only when a
listing entry's name equals `fileName` exactly; a listing failure yields
`None`. -/
def check_supabase_storage (userId datasetName fileName : String)
    (listFolder : String → Option (List String)) : Option String :=
  let slug := datasetSlug datasetName
  let bucketPath := mkBucketPath userId slug fileName
  match listFolder ("user_" ++ userId ++ "/" ++ slug) with
  | none => none
  | some files => if files.contains fileName then some bucketPath else none

/-- The Dataset Explorer page's detection (pages/1_Dataset_Explorer.py lines
134-139): the first stored dataset whose name has the slug as a substring. -/
def explorerFindsExisting (datasetName : String)
    (userDatasets : List DatasetEntry) : Option DatasetEntry :=
  userDatasets.find? (fun d => strContains d.name (datasetSlug datasetName))

/-- C9: the two "dataset already exists" predicates disagree: with the user's
storage holding only `org_demo/other.csv`, for dataset name "org/demo" the
Explorer's slug-substring search reports an existing dataset while
`check_supabase_storage` (which app.py calls with expected file
`scrubbed.csv` and compares listing names exactly) reports none. -/
theorem c9_existence_predicates_disagree :
    check_supabase_storage "1" "org/demo" "scrubbed.csv"
      (fun _ => some ["other.csv"]) = none ∧
    (explorerFindsExisting "org/demo"
      (get_user_datasets "1" ["org_demo"] (fun _ => ["other.csv"]))).isSome
      = true :=
  ⟨rfl, rfl⟩

/-! ## Logout: app.py lines 260-280. `st.session_state` is a string-keyed
dictionary; `supabase.auth.sign_out()` either succeeds or raises, and on a
raise the `except` branch runs before any key was touched. -/

/-- Session-state values, abstracted to the shapes logout writes. -/
inductive SVal where
  | boolV (b : Bool)
  | strV (s : String)
  | noneV
  | otherV (n : Nat)
  deriving DecidableEq, Repr

/-- The `st.session_state` dictionary as an association list with unique keys. -/
abbrev SState := List (String × SVal)

/-- Embedding of `del st.session_state[k]`. -/
def delKey (st : SState) (k : String) : SState :=
  st.filter (fun e => !(e.1 == k))

/-- Embedding of `st.session_state[k] = v`: update in place, else append. -/
def setKey : SState → String → SVal → SState
  | [], k, v => [(k, v)]
  | e :: rest, k, v =>
    if e.1 == k then (k, v) :: rest else e :: setKey rest k v

/-- Embedding of `for key in list(st.session_state.keys()): del st.session_state[key]`
(app.py lines 265-266). -/
def clearAllKeys (st : SState) : SState :=
  (st.map Prod.fst).foldl delKey st

/-- The reassignments on app.py lines 268-278, in source order. -/
def resetSessionKeys (st0 : SState) : SState :=
  let st1 := setKey st0 "authenticated" (.boolV false)
  let st2 := setKey st1 "user" .noneV
  let st3 := setKey st2 "current_page" (.strV "welcome")
  let st4 := setKey st3 "summary_response" .noneV
  let st5 := setKey st4 "stats_response" .noneV
  let st6 := setKey st5 "head_response" .noneV
  let st7 := setKey st6 "filter_response" .noneV
  let st8 := setKey st7 "unique_response" .noneV
  let st9 := setKey st8 "current_dataset" .noneV
  setKey st9 "df" .noneV

/-- Embedding of `logout` (app.py lines 260-280): when `sign_out()` succeeds, clear every
key and reassign the fixed ten; when it raises, the `except` branch runs and
no key is touched. -/
def logout (signOutOk : Bool) (st : SState) : SState :=
  if signOutOk then resetSessionKeys (clearAllKeys st) else st

/-- The exact session state after a successful logout. -/
def loggedOutState : SState :=
  [("authenticated", .boolV false), ("user", .noneV),
   ("current_page", .strV "welcome"), ("summary_response", .noneV),
   ("stats_response", .noneV), ("head_response", .noneV),
   ("filter_response", .noneV), ("unique_response", .noneV),
   ("current_dataset", .noneV), ("df", .noneV)]

theorem foldl_delKey_eq_nil (l : List String) :
    ∀ st : SState, (∀ e ∈ st, e.1 ∈ l) → l.foldl delKey st = [] := by
  induction l with
  | nil =>
    intro st h
    cases st with
    | nil => rfl
    | cons e rest => exact absurd (h e (List.mem_cons_self e rest)) (List.not_mem_nil e.1)
  | cons k ks ih =>
    intro st h
    simp only [List.foldl_cons]
    apply ih
    intro e he
    obtain ⟨hmem, hne⟩ := List.mem_filter.mp he
    rcases List.mem_cons.mp (h e hmem) with heq | hks
    · rw [heq] at hne
      simp at hne
    · exact hks

theorem clearAllKeys_eq_nil (st : SState) : clearAllKeys st = [] :=
  foldl_delKey_eq_nil (st.map Prod.fst) st
    (fun _ he => List.mem_map_of_mem Prod.fst he)

/-- C10: logout is atomic over session state: on a successful sign-out every
session-state key is cleared and the state becomes exactly the reset state
(authenticated false, user none, page 'welcome', every cached API response,
the current dataset and the loaded table none); on a sign-out failure no
session-state key is modified — in particular `authenticated` keeps its
value. -/
theorem c10_logout_atomic (st : SState) :
    logout true st = loggedOutState ∧
    logout false st = st ∧
    List.lookup "authenticated" loggedOutState = some (.boolV false) ∧
    List.lookup "user" loggedOutState = some .noneV ∧
    List.lookup "current_page" loggedOutState = some (.strV "welcome") ∧
    List.lookup "summary_response" loggedOutState = some .noneV ∧
    List.lookup "stats_response" loggedOutState = some .noneV ∧
    List.lookup "head_response" loggedOutState = some .noneV ∧
    List.lookup "filter_response" loggedOutState = some .noneV ∧
    List.lookup "unique_response" loggedOutState = some .noneV ∧
    List.lookup "current_dataset" loggedOutState = some .noneV ∧
    List.lookup "df" loggedOutState = some .noneV := by
  refine ⟨?_, rfl, rfl, rfl, rfl, rfl, rfl, rfl, rfl, rfl, rfl, rfl⟩
  have h1 : logout true st = resetSessionKeys (clearAllKeys st) := rfl
  rw [h1, clearAllKeys_eq_nil]
  rfl

end DataVault
